import Mathlib

/-!
Shallow embedding of the capture-and-composite core of the InfinitePIP
picture-in-picture utility (`src/infinitepip/ui/pip_window.py` and
`src/infinitepip/ui/app.py`).

Modelling conventions:
* Python `int` is `ℤ` (unbounded), Python `float` arithmetic on
  width/height ratios is modelled exactly by `ℚ`.
* Python `int(x)` (truncation toward zero) is `pyInt`; Python `//`
  (floor division) is `Int.fdiv`.
* A PIL image is modelled by its pixel dimensions, a total pixel
  function (normalised to the fill colour outside bounds) and the list
  of text overlays drawn on it; `Image.resize` stands in for the
  LANCZOS resampling call (pixel values are index-remapped, which is
  dimension-faithful; no claim depends on the filter kernel), and
  `Image.crop` follows PIL's box semantics, padding out-of-source
  pixels with black.
-/

namespace InfinitePIP

/-- Python `int()` applied to an exact rational: truncation toward zero. -/
def pyInt (q : ℚ) : ℤ := if 0 ≤ q then ⌊q⌋ else ⌈q⌉

/-- An RGB pixel. -/
def Pix : Type := ℕ × ℕ × ℕ

instance : DecidableEq Pix := by
  unfold Pix
  infer_instance

/-- Model of a PIL image: dimensions, a total pixel map (black outside
bounds) and the list of `(text, x, y)` overlays drawn onto it. -/
@[ext]
structure Image where
  width : ℤ
  height : ℤ
  pix : ℤ → ℤ → Pix
  texts : List (String × ℤ × ℤ)

/-- `PIL.Image.new("RGB", (w, h), color)`. -/
def Image.new (w h : ℤ) (color : Pix) : Image where
  width := w
  height := h
  pix := fun x y => if 0 ≤ x ∧ x < w ∧ 0 ≤ y ∧ y < h then color else (0, 0, 0)
  texts := []

/-- `img.resize((nw, nh), LANCZOS)`: dimension-faithful model of the
resampling call; pixels are sampled by index scaling. -/
def Image.resize (img : Image) (nw nh : ℤ) : Image where
  width := nw
  height := nh
  pix := fun x y =>
    if 0 ≤ x ∧ x < nw ∧ 0 ≤ y ∧ y < nh then
      img.pix (Int.fdiv (x * img.width) nw) (Int.fdiv (y * img.height) nh)
    else (0, 0, 0)
  texts := img.texts

/-- `img.crop((l, t, r, b))`: PIL box semantics — the result has size
`(r - l, b - t)`, pixels are taken from the source shifted by `(l, t)`,
out-of-source pixels are black. -/
def Image.crop (img : Image) (l t r b : ℤ) : Image where
  width := r - l
  height := b - t
  pix := fun x y =>
    if 0 ≤ x ∧ x < r - l ∧ 0 ≤ y ∧ y < b - t ∧
        0 ≤ x + l ∧ x + l < img.width ∧ 0 ≤ y + t ∧ y + t < img.height then
      img.pix (x + l) (y + t)
    else (0, 0, 0)
  texts := img.texts

/-- `ImageDraw.Draw(img).text((x, y), s, ...)`: records the overlay. -/
def Image.drawText (img : Image) (s : String) (x y : ℤ) : Image :=
  { img with texts := (s, x, y) :: img.texts }

/-- `InfinitePIPWindow.resize_image_maintain_aspect` (pip_window.py 797-826):
fill the target canvas, preserving the source aspect ratio by scaling to
the covering size and center-cropping the overflowing axis. -/
def resize_image_maintain_aspect (img : Image) (target_width target_height : ℤ) : Image :=
  let original_width := img.width
  let original_height := img.height
  let original_aspect : ℚ := (original_width : ℚ) / (original_height : ℚ)
  let target_aspect : ℚ := (target_width : ℚ) / (target_height : ℚ)
  if original_aspect > target_aspect then
    let new_height := target_height
    let new_width := pyInt ((target_height : ℚ) * original_aspect)
    let resized_img := img.resize new_width new_height
    let crop_x := Int.fdiv (new_width - target_width) 2
    resized_img.crop crop_x 0 (crop_x + target_width) target_height
  else
    let new_width := target_width
    let new_height := pyInt ((target_width : ℚ) / original_aspect)
    let resized_img := img.resize new_width new_height
    let crop_y := Int.fdiv (new_height - target_height) 2
    resized_img.crop 0 crop_y target_width (crop_y + target_height)

/-- The eight resize handles of the borderless overlay window
(`create_resize_handles` / `get_resize_corner`, pip_window.py 113-158). -/
inductive Corner where
  | se | sw | ne | nw | n | s | e | w
deriving DecidableEq

/-- Python `"e" in self.resize_corner` over the handle names. -/
def Corner.hasE : Corner → Bool
  | .se => true
  | .ne => true
  | .e => true
  | _ => false

/-- Python `"w" in self.resize_corner` over the handle names. -/
def Corner.hasW : Corner → Bool
  | .sw => true
  | .nw => true
  | .w => true
  | _ => false

/-- Python `"n" in self.resize_corner` over the handle names. -/
def Corner.hasN : Corner → Bool
  | .ne => true
  | .nw => true
  | .n => true
  | _ => false

/-- Python `"s" in self.resize_corner` over the handle names. -/
def Corner.hasS : Corner → Bool
  | .se => true
  | .sw => true
  | .s => true
  | _ => false

/-- `InfinitePIPWindow.constrain_aspect_ratio` (pip_window.py 230-274).
`winfo_width`/`winfo_height` are the live window dimensions read through
`self.window.winfo_width()`/`winfo_height()`; the result is the
geometry `(new_width, new_height, new_x, new_y)` that `handle_resize`
applies. -/
def constrain_aspect_ratio (source_aspect_ratio : ℚ) (resize_corner : Corner)
    (winfo_width winfo_height : ℤ)
    (new_width new_height new_x new_y current_x current_y : ℤ) : ℤ × ℤ × ℤ × ℤ :=
  let target_ratio := source_aspect_ratio
  let (new_width, new_height) :=
    if resize_corner = Corner.e ∨ resize_corner = Corner.w then
      let new_height := pyInt ((new_width : ℚ) / target_ratio)
      let new_height := max 150 new_height
      let new_width := pyInt ((new_height : ℚ) * target_ratio)
      (new_width, new_height)
    else if resize_corner = Corner.n ∨ resize_corner = Corner.s then
      let new_width := pyInt ((new_height : ℚ) * target_ratio)
      let new_width := max 200 new_width
      let new_height := pyInt ((new_width : ℚ) / target_ratio)
      (new_width, new_height)
    else
      let width_change := |new_width - winfo_width|
      let height_change := |new_height - winfo_height|
      if width_change > height_change then
        let new_height := pyInt ((new_width : ℚ) / target_ratio)
        let new_height := max 150 new_height
        let new_width := pyInt ((new_height : ℚ) * target_ratio)
        (new_width, new_height)
      else
        let new_width := pyInt ((new_height : ℚ) * target_ratio)
        let new_width := max 200 new_width
        let new_height := pyInt ((new_width : ℚ) / target_ratio)
        (new_width, new_height)
  let new_y := if resize_corner.hasN then current_y - (new_height - winfo_height) else new_y
  let new_x := if resize_corner.hasW then current_x - (new_width - winfo_width) else new_x
  (new_width, new_height, new_x, new_y)

/-- `InfinitePIPWindow.handle_resize` (pip_window.py 192-228).
`current_*` are the live window geometry, `deltax`/`deltay` the mouse
deltas of the drag event; returns the geometry the handler applies.
The aspect-ratio constraint runs only when the stored ratio is truthy
(not `None`, not `0.0`) and `maintain_aspect_ratio` is set. -/
def handle_resize (source_aspect_ratio : Option ℚ) (maintain_aspect_ratio : Bool)
    (resize_corner : Corner)
    (current_width current_height current_x current_y deltax deltay : ℤ) : ℤ × ℤ × ℤ × ℤ :=
  let new_width :=
    if resize_corner.hasE then max 200 (current_width + deltax)
    else if resize_corner.hasW then max 200 (current_width - deltax)
    else current_width
  let new_x := if resize_corner.hasW then current_x + deltax else current_x
  let new_height :=
    if resize_corner.hasS then max 150 (current_height + deltay)
    else if resize_corner.hasN then max 150 (current_height - deltay)
    else current_height
  let new_y := if resize_corner.hasN then current_y + deltay else current_y
  match source_aspect_ratio with
  | some r =>
    if r ≠ 0 ∧ maintain_aspect_ratio = true then
      constrain_aspect_ratio r resize_corner current_width current_height
        new_width new_height new_x new_y current_x current_y
    else (new_width, new_height, new_x, new_y)
  | none => (new_width, new_height, new_x, new_y)

/-- `InfinitePIPWindow.update_pip_window_size` (pip_window.py 461-495):
recompute the overlay geometry from the tracked source ratio, keeping
the current width unless the height change would exceed half the
current height, in which case the width is recomputed from the current
height instead. -/
def update_pip_window_size (source_aspect_ratio : ℚ)
    (current_width current_height current_x current_y : ℤ) : ℤ × ℤ × ℤ × ℤ :=
  let new_height := pyInt ((current_width : ℚ) / source_aspect_ratio)
  let new_height := max 150 new_height
  if |(new_height : ℚ) - (current_height : ℚ)| > (current_height : ℚ) * (5 / 10) then
    let new_width := pyInt ((current_height : ℚ) * source_aspect_ratio)
    let new_width := max 200 new_width
    let new_height := pyInt ((new_width : ℚ) / source_aspect_ratio)
    (new_width, new_height, current_x, current_y)
  else
    (current_width, new_height, current_x, current_y)

/-- The per-session flags and tracked ratio that
`handle_source_size_change` reads and writes. -/
structure PipState where
  maintain_aspect_ratio : Bool
  auto_resize_on_source_change : Bool
  source_aspect_ratio : Option ℚ
deriving DecidableEq

/-- `InfinitePIPWindow.handle_source_size_change` (pip_window.py 434-459):
on an observed source size, update the tracked ratio when it changed by
more than the 0.01 noise threshold (or none was tracked) and, when
`auto_resize_on_source_change` is set, schedule `update_pip_window_size`
on the UI thread; the returned `Bool` is that scheduled signal. -/
def handle_source_size_change (st : PipState) (new_size : ℤ × ℤ) : PipState × Bool :=
  if st.maintain_aspect_ratio = false then (st, false)
  else
    let new_width := new_size.1
    let new_height := new_size.2
    if 0 < new_height then
      let new_aspect_ratio : ℚ := (new_width : ℚ) / (new_height : ℚ)
      match st.source_aspect_ratio with
      | none =>
        ({ st with source_aspect_ratio := some new_aspect_ratio },
          st.auto_resize_on_source_change)
      | some old =>
        if 1 / 100 < |new_aspect_ratio - old| then
          ({ st with source_aspect_ratio := some new_aspect_ratio },
            st.auto_resize_on_source_change)
        else (st, false)
    else (st, false)

/-- The Win32 surface that `capture_window_direct` and
`create_placeholder_image` consult for one capture tick, modelled as a
read-only environment: `GetWindowRect` as `(left, top, right, bottom)`,
`GetClientRect` as `(0, 0, client_width, client_height)` (`none` models
its exception path), the font metrics behind `draw.textbbox` as
`(l, t, r, b)` per text, the success of the `PrintWindow` and `BitBlt`
strategies, and the captured pixel content. `imagedraw_available`
models the `from PIL import ImageDraw, ImageFont` probe inside
`create_placeholder_image` (Pillow itself is a hard dependency, see
deps.py). -/
structure Win32Env where
  is_window : Bool
  window_rect : ℤ × ℤ × ℤ × ℤ
  client_rect : Option (ℤ × ℤ × ℤ × ℤ)
  is_iconic : Bool
  imagedraw_available : Bool
  text_metrics : String → ℤ × ℤ × ℤ × ℤ
  print_window_ok : Bool
  bitblt_ok : Bool
  screen : ℤ → ℤ → Pix

/-- `InfinitePIPWindow.create_placeholder_image` (pip_window.py 745-781):
a fixed 400x300 dark bitmap with the status text drawn centered
according to the font's text bounding box. -/
def create_placeholder_image (env : Win32Env) (text : String) : Image :=
  let width : ℤ := 400
  let height : ℤ := 300
  let img := Image.new width height (40, 40, 40)
  if env.imagedraw_available then
    let bb := env.text_metrics text
    let text_width := bb.2.2.1 - bb.1
    let text_height := bb.2.2.2 - bb.2.1
    let x := Int.fdiv (width - text_width) 2
    let y := Int.fdiv (height - text_height) 2
    img.drawText text x y
  else img

/-- `InfinitePIPWindow.capture_with_print_window` (pip_window.py 589-637):
the `PrintWindow(PW_RENDERFULLCONTENT)` strategy; on success the bitmap
has exactly the requested dimensions. -/
def capture_with_print_window (env : Win32Env) (width height : ℤ) : Option Image :=
  if env.print_window_ok then
    some
      { width := width, height := height,
        pix := fun x y =>
          if 0 ≤ x ∧ x < width ∧ 0 ≤ y ∧ y < height then env.screen x y else (0, 0, 0),
        texts := [] }
  else none

/-- `InfinitePIPWindow.capture_with_bitblt` (pip_window.py 639-689): the
legacy `BitBlt` fallback strategy. -/
def capture_with_bitblt (env : Win32Env) (width height : ℤ) : Option Image :=
  if env.bitblt_ok then
    some
      { width := width, height := height,
        pix := fun x y =>
          if 0 ≤ x ∧ x < width ∧ 0 ≤ y ∧ y < height then env.screen x y else (0, 0, 0),
        texts := [] }
  else none

/-- `InfinitePIPWindow.capture_window_direct` (pip_window.py 531-587):
validate the handle, prefer the client area when both its dimensions
exceed 100, track the bounding box in `source_data["bbox"]`, substitute
the "Window Minimized" placeholder for degenerate or iconified windows,
then try `PrintWindow` and fall back to `BitBlt`. Returns the updated
tracked bbox together with the captured frame. -/
def capture_window_direct (env : Win32Env) (source_bbox : ℤ × ℤ × ℤ × ℤ) :
    (ℤ × ℤ × ℤ × ℤ) × Option Image :=
  if env.is_window = false then (source_bbox, none)
  else
    let left := env.window_rect.1
    let top := env.window_rect.2.1
    let right := env.window_rect.2.2.1
    let bottom := env.window_rect.2.2.2
    let width := right - left
    let height := bottom - top
    let (width, height) :=
      match env.client_rect with
      | some client_rect =>
        let client_width := client_rect.2.2.1
        let client_height := client_rect.2.2.2
        if 100 < client_width ∧ 100 < client_height then (client_width, client_height)
        else (width, height)
      | none => (width, height)
    let current_bbox := (left, top, width, height)
    let source_bbox := if source_bbox ≠ current_bbox then current_bbox else source_bbox
    if width ≤ 0 ∨ height ≤ 0 then
      (source_bbox, some (create_placeholder_image env "Window Minimized"))
    else if env.is_iconic = true then
      (source_bbox, some (create_placeholder_image env "Window Minimized"))
    else
      match capture_with_print_window env width height with
      | some img => (source_bbox, some img)
      | none => (source_bbox, capture_with_bitblt env width height)

/-- The session state read and written by `update_window_position`:
tracked bbox `(left, top, width, height)`, tracked ratio, the two
toggles, and whether the overlay window still exists
(`self.window and self.window.winfo_exists()`). -/
structure TrackState where
  bbox : ℤ × ℤ × ℤ × ℤ
  source_aspect_ratio : Option ℚ
  maintain_aspect_ratio : Bool
  auto_resize_on_source_change : Bool
  window_exists : Bool
deriving DecidableEq

/-- `InfinitePIPWindow.update_window_position` (pip_window.py 706-743):
re-resolve the tracked window by title (`lookup` is the bounding box of
the first window `pygetwindow` returns, `none` when the title matches
nothing), update the tracked bbox, and on a size change whose exact
ratio differs at all set the tracked ratio immediately and schedule an
overlay resize when both toggles are set and the overlay still exists;
the returned `Bool` is that scheduled signal. -/
def update_window_position (st : TrackState) (lookup : Option (ℤ × ℤ × ℤ × ℤ)) :
    TrackState × Bool :=
  match lookup with
  | none => (st, false)
  | some new_bbox =>
    let old_bbox := st.bbox
    if old_bbox ≠ new_bbox then
      if (old_bbox.2.2.1, old_bbox.2.2.2) ≠ (new_bbox.2.2.1, new_bbox.2.2.2) then
        let old_aspect : Option ℚ :=
          if 0 < old_bbox.2.2.2 then some ((old_bbox.2.2.1 : ℚ) / (old_bbox.2.2.2 : ℚ))
          else none
        let new_aspect : Option ℚ :=
          if 0 < new_bbox.2.2.2 then some ((new_bbox.2.2.1 : ℚ) / (new_bbox.2.2.2 : ℚ))
          else none
        if old_aspect ≠ new_aspect then
          ({ st with bbox := new_bbox, source_aspect_ratio := new_aspect },
            st.maintain_aspect_ratio && st.auto_resize_on_source_change && st.window_exists)
        else ({ st with bbox := new_bbox }, false)
      else ({ st with bbox := new_bbox }, false)
    else (st, false)

/-- One iteration of `InfinitePIPWindow.capture_loop` (pip_window.py
406-433) after the capture call: on a frame with the overlay alive,
detect a source-size change against `last_source_size`, run
`handle_source_size_change`, and when the canvas is larger than 1x1
composite the frame with `resize_image_maintain_aspect`. Returns the
new flag/ratio state, the new `last_source_size`, and the bitmap posted
to the canvas (if any). -/
def capture_loop_step (st : PipState) (last_source_size : Option (ℤ × ℤ))
    (img : Option Image) (window_alive : Bool) (canvas_width canvas_height : ℤ) :
    PipState × Option (ℤ × ℤ) × Option Image :=
  match img with
  | none => (st, last_source_size, none)
  | some i =>
    if window_alive then
      let current_source_size := (i.width, i.height)
      let (st, last_source_size) :=
        if last_source_size ≠ some current_source_size then
          ((handle_source_size_change st current_source_size).1, some current_source_size)
        else (st, last_source_size)
      if 1 < canvas_width ∧ 1 < canvas_height then
        (st, last_source_size, some (resize_image_maintain_aspect i canvas_width canvas_height))
      else (st, last_source_size, none)
    else (st, last_source_size, none)

/-- Outcome of `InfinitePIPApp.create_region_pip`: either a
synchronously reported error dialog or a created region session. -/
inductive CreateRegionResult where
  | error (msg : String)
  | created (x y width height : ℤ)
deriving DecidableEq

/-- `InfinitePIPApp.create_region_pip` (app.py 1662-1684): parse the
four entry fields (`none` models a non-numeric field, where `int(...)`
raises `ValueError`), reject non-positive width/height with an error
dialog, otherwise create the region session and append it to
`active_pips`. Returns the outcome and the new `active_pips` list. -/
def create_region_pip (region_x_entry region_y_entry region_width_entry region_height_entry : Option ℤ)
    (active_pips : List (ℤ × ℤ × ℤ × ℤ)) : CreateRegionResult × List (ℤ × ℤ × ℤ × ℤ) :=
  match region_x_entry, region_y_entry, region_width_entry, region_height_entry with
  | some x, some y, some width, some height =>
    if width ≤ 0 ∨ height ≤ 0 then
      (CreateRegionResult.error "Width and height must be positive", active_pips)
    else
      (CreateRegionResult.created x y width height, active_pips ++ [(x, y, width, height)])
  | _, _, _, _ =>
    (CreateRegionResult.error "Please enter valid numbers for all fields", active_pips)

/-- Python `int()` agrees with the floor on non-negative rationals. -/
lemma pyInt_of_nonneg {q : ℚ} (h : 0 ≤ q) : pyInt q = ⌊q⌋ := if_pos h

/-- An integer lower bound on a non-negative rational survives `pyInt`. -/
lemma le_pyInt {n : ℤ} {q : ℚ} (hq : 0 ≤ q) (h : (n : ℚ) ≤ q) : n ≤ pyInt q := by
  rw [pyInt_of_nonneg hq]
  exact Int.le_floor.mpr h

/-- Cropping a resized bitmap with the full-bitmap box is the identity. -/
lemma crop_resize_full (img : Image) (w h : ℤ) :
    (img.resize w h).crop 0 0 w h = img.resize w h := by
  ext x y
  · simp [Image.crop, Image.resize]
  · simp [Image.crop, Image.resize]
  · simp only [Image.crop, Image.resize, sub_zero, add_zero]
    by_cases hx : 0 ≤ x ∧ x < w ∧ 0 ≤ y ∧ y < h
    · obtain ⟨h1, h2, h3, h4⟩ := hx
      simp [h1, h2, h3, h4]
    · rw [if_neg (fun hc => hx ⟨hc.1, hc.2.1, hc.2.2.1, hc.2.2.2.1⟩), if_neg hx]
  · rfl

/-- C1: for every source bitmap with positive dimensions and every
positive target size, `resize_image_maintain_aspect` returns a bitmap
of exactly `target_w x target_h`; when `sw/sh > target_w/target_h` it
scales the source so its height equals `target_h` (scaled width
`int(target_h * sw/sh)`) and center-crops horizontally with left
offset `(scaled_width - target_w) // 2`, the crop box lying inside the
scaled bitmap; otherwise it scales so its width equals `target_w` and
center-crops vertically with top offset
`(scaled_height - target_h) // 2`. -/
theorem fit_fills_target (img : Image) (tw th : ℤ)
    (hsw : 0 < img.width) (hsh : 0 < img.height) (htw : 0 < tw) (hth : 0 < th) :
    (resize_image_maintain_aspect img tw th).width = tw ∧
    (resize_image_maintain_aspect img tw th).height = th ∧
    (∀ new_width crop_x,
      new_width = pyInt ((th : ℚ) * ((img.width : ℚ) / (img.height : ℚ))) →
      crop_x = Int.fdiv (new_width - tw) 2 →
      (img.width : ℚ) / (img.height : ℚ) > (tw : ℚ) / (th : ℚ) →
      tw ≤ new_width ∧ 0 ≤ crop_x ∧ crop_x + tw ≤ new_width ∧
      resize_image_maintain_aspect img tw th =
        (img.resize new_width th).crop crop_x 0 (crop_x + tw) th) ∧
    (∀ new_height crop_y,
      new_height = pyInt ((tw : ℚ) / ((img.width : ℚ) / (img.height : ℚ))) →
      crop_y = Int.fdiv (new_height - th) 2 →
      ¬ ((img.width : ℚ) / (img.height : ℚ) > (tw : ℚ) / (th : ℚ)) →
      th ≤ new_height ∧ 0 ≤ crop_y ∧ crop_y + th ≤ new_height ∧
      resize_image_maintain_aspect img tw th =
        (img.resize tw new_height).crop 0 crop_y tw (crop_y + th)) := by
  have hswQ : (0 : ℚ) < (img.width : ℚ) := by exact_mod_cast hsw
  have hshQ : (0 : ℚ) < (img.height : ℚ) := by exact_mod_cast hsh
  have htwQ : (0 : ℚ) < (tw : ℚ) := by exact_mod_cast htw
  have hthQ : (0 : ℚ) < (th : ℚ) := by exact_mod_cast hth
  have hA : (0 : ℚ) < (img.width : ℚ) / (img.height : ℚ) := div_pos hswQ hshQ
  refine ⟨?_, ?_, ?_, ?_⟩
  · simp only [resize_image_maintain_aspect]
    split <;> simp [Image.crop]
  · simp only [resize_image_maintain_aspect]
    split <;> simp [Image.crop]
  · rintro new_width crop_x rfl rfl hgt
    have hq : (0 : ℚ) ≤ (th : ℚ) * ((img.width : ℚ) / (img.height : ℚ)) :=
      le_of_lt (mul_pos hthQ hA)
    have hle : (tw : ℚ) ≤ (th : ℚ) * ((img.width : ℚ) / (img.height : ℚ)) := by
      have h1 : (th : ℚ) * ((tw : ℚ) / (th : ℚ)) = (tw : ℚ) := by
        field_simp
      have h2 : (th : ℚ) * ((tw : ℚ) / (th : ℚ)) <
          (th : ℚ) * ((img.width : ℚ) / (img.height : ℚ)) :=
        mul_lt_mul_of_pos_left hgt hthQ
      rw [h1] at h2
      exact le_of_lt h2
    have hnw : tw ≤ pyInt ((th : ℚ) * ((img.width : ℚ) / (img.height : ℚ))) :=
      le_pyInt hq hle
    have hd : 0 ≤ pyInt ((th : ℚ) * ((img.width : ℚ) / (img.height : ℚ))) - tw := by omega
    have hcx : 0 ≤ Int.fdiv (pyInt ((th : ℚ) * ((img.width : ℚ) / (img.height : ℚ))) - tw) 2 :=
      Int.fdiv_nonneg hd (by norm_num)
    have hcx2 : Int.fdiv (pyInt ((th : ℚ) * ((img.width : ℚ) / (img.height : ℚ))) - tw) 2 ≤
        pyInt ((th : ℚ) * ((img.width : ℚ) / (img.height : ℚ))) - tw := by
      rw [Int.fdiv_eq_ediv _ (by norm_num)]
      exact Int.ediv_le_self _ hd
    refine ⟨hnw, hcx, by omega, ?_⟩
    simp only [resize_image_maintain_aspect]
    rw [if_pos hgt]
  · rintro new_height crop_y rfl rfl hle
    push_neg at hle
    have hq : (0 : ℚ) ≤ (tw : ℚ) / ((img.width : ℚ) / (img.height : ℚ)) :=
      le_of_lt (div_pos htwQ hA)
    have hth2 : (th : ℚ) ≤ (tw : ℚ) / ((img.width : ℚ) / (img.height : ℚ)) := by
      have h1 : (tw : ℚ) / ((tw : ℚ) / (th : ℚ)) = (th : ℚ) := by
        rw [div_div_eq_mul_div]
        field_simp
      have h2 : (tw : ℚ) / ((tw : ℚ) / (th : ℚ)) ≤
          (tw : ℚ) / ((img.width : ℚ) / (img.height : ℚ)) := by
        gcongr
      rw [h1] at h2
      exact h2
    have hnh : th ≤ pyInt ((tw : ℚ) / ((img.width : ℚ) / (img.height : ℚ))) :=
      le_pyInt hq hth2
    have hd : 0 ≤ pyInt ((tw : ℚ) / ((img.width : ℚ) / (img.height : ℚ))) - th := by omega
    have hcy : 0 ≤ Int.fdiv (pyInt ((tw : ℚ) / ((img.width : ℚ) / (img.height : ℚ))) - th) 2 :=
      Int.fdiv_nonneg hd (by norm_num)
    have hcy2 : Int.fdiv (pyInt ((tw : ℚ) / ((img.width : ℚ) / (img.height : ℚ))) - th) 2 ≤
        pyInt ((tw : ℚ) / ((img.width : ℚ) / (img.height : ℚ))) - th := by
      rw [Int.fdiv_eq_ediv _ (by norm_num)]
      exact Int.ediv_le_self _ hd
    refine ⟨hnh, hcy, by omega, ?_⟩
    simp only [resize_image_maintain_aspect]
    rw [if_neg (not_lt.mpr hle)]

/-- C1 witness: a 160x90 source fitted to 30x20 satisfies the
hypotheses and yields a 30x20 bitmap. -/
theorem fit_fills_target_witness :
    0 < (Image.new 160 90 (0, 0, 0)).width ∧ 0 < (Image.new 160 90 (0, 0, 0)).height ∧
    (0 : ℤ) < 30 ∧ (0 : ℤ) < 20 ∧
    (resize_image_maintain_aspect (Image.new 160 90 (0, 0, 0)) 30 20).width = 30 ∧
    (resize_image_maintain_aspect (Image.new 160 90 (0, 0, 0)) 30 20).height = 20 :=
  ⟨by norm_num [Image.new], by norm_num [Image.new], by norm_num, by norm_num,
    (fit_fills_target (Image.new 160 90 (0, 0, 0)) 30 20 (by norm_num [Image.new])
      (by norm_num [Image.new]) (by norm_num) (by norm_num)).1,
    (fit_fills_target (Image.new 160 90 (0, 0, 0)) 30 20 (by norm_num [Image.new])
      (by norm_num [Image.new]) (by norm_num) (by norm_num)).2.1⟩

/-- C2 counterexample: an east drag with ratio 13/10 and the proposed
geometry 200x150 produced by `handle_resize` (so proposed width 200 ≥
200 and height 150 ≥ 150) returns width 198 < 200: the claimed
minimum-size invariant fails on the re-derived axis. -/
theorem minsize_counterexample :
    handle_resize (some (13 / 10)) true Corner.e 200 150 0 0 0 0 = (198, 153, 0, 0) ∧
    ¬ (200 ≤ (198 : ℤ)) := by
  constructor
  · norm_num [handle_resize, constrain_aspect_ratio, pyInt,
      Corner.hasN, Corner.hasW, Corner.hasE, Corner.hasS]
  · norm_num

/-- C2 amended: `constrain_aspect_ratio` enforces the floor only on the
dimension it derives first — height ≥ 150 on east/west drags, width ≥
200 on north/south drags, and on corner drags (and in
`update_pip_window_size`) at least one of the two floors — while the
re-derived other dimension may drop below its floor. -/
theorem minsize_driving_axis (r : ℚ) (ww wh nw nh nx ny cx cy ux uy : ℤ) :
    (150 ≤ (constrain_aspect_ratio r Corner.e ww wh nw nh nx ny cx cy).2.1) ∧
    (150 ≤ (constrain_aspect_ratio r Corner.w ww wh nw nh nx ny cx cy).2.1) ∧
    (200 ≤ (constrain_aspect_ratio r Corner.n ww wh nw nh nx ny cx cy).1) ∧
    (200 ≤ (constrain_aspect_ratio r Corner.s ww wh nw nh nx ny cx cy).1) ∧
    (∀ c : Corner,
      150 ≤ (constrain_aspect_ratio r c ww wh nw nh nx ny cx cy).2.1 ∨
      200 ≤ (constrain_aspect_ratio r c ww wh nw nh nx ny cx cy).1) ∧
    (150 ≤ (update_pip_window_size r ww wh ux uy).2.1 ∨
      200 ≤ (update_pip_window_size r ww wh ux uy).1) := by
  refine ⟨?_, ?_, ?_, ?_, ?_, ?_⟩
  · simp [constrain_aspect_ratio, Corner.hasN, Corner.hasW]
  · simp [constrain_aspect_ratio, Corner.hasN, Corner.hasW]
  · simp [constrain_aspect_ratio, Corner.hasN, Corner.hasW]
  · simp [constrain_aspect_ratio, Corner.hasN, Corner.hasW]
  · intro c
    cases c <;>
      simp only [constrain_aspect_ratio, Corner.hasN, Corner.hasW] <;>
      simp <;>
      (try split) <;>
      simp [le_max_left]
  · simp only [update_pip_window_size]
    split
    · right
      simp [le_max_left]
    · left
      simp [le_max_left]

/-- C3 counterexample: an east drag with ratio 13/10 and proposed width
200 yields the geometry (198, 153, x, y); 153 is neither
`round(198 / (13/10)) = 152` (result width) nor
`round(200 / (13/10)) = 154` (proposed width): the constrained height
is a truncation, not a rounding, of width/ratio. -/
theorem east_drag_round_counterexample :
    handle_resize (some (13 / 10)) true Corner.e 200 150 7 9 0 0 = (198, 153, 7, 9) ∧
    round ((198 : ℚ) / (13 / 10)) ≠ (153 : ℤ) ∧
    round ((200 : ℚ) / (13 / 10)) ≠ (153 : ℤ) := by
  refine ⟨?_, ?_, ?_⟩
  · norm_num [handle_resize, constrain_aspect_ratio, pyInt,
      Corner.hasN, Corner.hasW, Corner.hasE, Corner.hasS]
  · rw [round_eq]
    norm_num
  · rw [round_eq]
    norm_num

/-- C3 amended: for every pure east-edge drag with
`maintain_aspect_ratio` on and a positive ratio known, the constrained
height is `int(proposed_width / ratio)` (truncation) floored at 150,
the width is re-derived as `int(height * ratio)`, and the x/y origin is
unchanged; with ratio 1920/1080 a proposed width of 800 yields height
450 exactly, x/y unchanged. -/
theorem east_drag_truncation (r : ℚ) (hr : 0 < r)
    (current_width current_height current_x current_y deltax deltay : ℤ) :
    (∀ res, res = handle_resize (some r) true Corner.e
        current_width current_height current_x current_y deltax deltay →
      res.2.1 = max 150 (pyInt ((max 200 (current_width + deltax) : ℤ) / (r : ℚ))) ∧
      res.1 = pyInt ((res.2.1 : ℚ) * r) ∧
      res.2.2.1 = current_x ∧ res.2.2.2 = current_y) ∧
    handle_resize (some (1920 / 1080)) true Corner.e 400 225 3 5 400 0 = (800, 450, 3, 5) := by
  constructor
  · rintro res rfl
    simp only [handle_resize, constrain_aspect_ratio,
      Corner.hasN, Corner.hasW, Corner.hasE, Corner.hasS]
    rw [if_pos ⟨ne_of_gt hr, trivial⟩]
    simp
  · norm_num [handle_resize, constrain_aspect_ratio, pyInt,
      Corner.hasN, Corner.hasW, Corner.hasE, Corner.hasS]

/-- C3 witness: the claim's concrete east-drag scenario, via the
amended theorem at ratio 1920/1080. -/
theorem east_drag_truncation_witness :
    (0 : ℚ) < 1920 / 1080 ∧
    handle_resize (some (1920 / 1080)) true Corner.e 400 225 3 5 400 0 = (800, 450, 3, 5) :=
  ⟨by norm_num, (east_drag_truncation (1920 / 1080) (by norm_num) 400 225 3 5 400 0).2⟩

/-- C4 counterexample: with `maintain_aspect_ratio` off, an observed
size of 1280x960 against a tracked ratio 16/9 — a ratio change of 4/9,
far above the 0.01 threshold — updates nothing and signals no
auto-resize, contradicting the unconditional claim. -/
theorem noise_threshold_counterexample :
    handle_source_size_change ⟨false, true, some (16 / 9)⟩ (1280, 960) =
      (⟨false, true, some (16 / 9)⟩, false) ∧
    1 / 100 < |(1280 : ℚ) / 960 - 16 / 9| ∧
    ((1280 : ℚ) / 960 ≠ 16 / 9) := by
  refine ⟨?_, ?_, ?_⟩
  · norm_num [handle_source_size_change]
  · norm_num [abs_of_neg]
  · norm_num

/-- C4 amended: a ratio change of at most 0.01 leaves the tracked ratio
unchanged and signals no auto-resize (for either value of
`maintain_aspect_ratio`); a change above 0.01 updates the ratio and
signals an auto-resize exactly when `auto_resize_on_source_change` is
set, provided `maintain_aspect_ratio` is on. -/
theorem noise_threshold_amended (m auto : Bool) (old : ℚ) (nw nh : ℤ) (hnh : 0 < nh) :
    (|(nw : ℚ) / (nh : ℚ) - old| ≤ 1 / 100 →
      handle_source_size_change ⟨m, auto, some old⟩ (nw, nh) = (⟨m, auto, some old⟩, false)) ∧
    (1 / 100 < |(nw : ℚ) / (nh : ℚ) - old| →
      handle_source_size_change ⟨true, auto, some old⟩ (nw, nh) =
        (⟨true, auto, some ((nw : ℚ) / (nh : ℚ))⟩, auto)) := by
  constructor
  · intro hle
    cases m
    · rfl
    · simp only [handle_source_size_change]
      rw [if_neg (by simp), if_pos hnh, if_neg (not_lt.mpr hle)]
  · intro hgt
    simp only [handle_source_size_change]
    rw [if_neg (by simp), if_pos hnh, if_pos hgt]

/-- C4 witness: the claim's scenarios — 1280x720 then 1281x720 (ratio
change 1/720) triggers nothing, 1280x720 then 1280x960 (ratio change
4/9) updates the ratio and signals the auto-resize. -/
theorem noise_threshold_amended_witness :
    (0 : ℤ) < 720 ∧ (0 : ℤ) < 960 ∧
    handle_source_size_change ⟨true, true, some (16 / 9)⟩ (1281, 720) =
      (⟨true, true, some (16 / 9)⟩, false) ∧
    handle_source_size_change ⟨true, true, some (16 / 9)⟩ (1280, 960) =
      (⟨true, true, some ((1280 : ℚ) / 960)⟩, true) :=
  ⟨by norm_num, by norm_num,
    (noise_threshold_amended true true (16 / 9) 1281 720 (by norm_num)).1 (by norm_num [abs_le]),
    (noise_threshold_amended true true (16 / 9) 1280 960 (by norm_num)).2
      (by norm_num [abs_of_neg])⟩

/-- C5: whenever the native handle still refers to a window
(`IsWindow`) and the window is iconified (`IsIconic`),
`capture_window_direct` returns the "Window Minimized" placeholder —
never `None` — and that placeholder carries exactly the centered
"Window Minimized" text, positioned from the font's text bounding
box. -/
theorem minimized_window_placeholder (env : Win32Env) (source_bbox : ℤ × ℤ × ℤ × ℤ)
    (hwin : env.is_window = true) (hicon : env.is_iconic = true)
    (hdraw : env.imagedraw_available = true) :
    (capture_window_direct env source_bbox).2 =
      some (create_placeholder_image env "Window Minimized") ∧
    (∀ bb, bb = env.text_metrics "Window Minimized" →
      (create_placeholder_image env "Window Minimized").texts =
        [("Window Minimized", Int.fdiv (400 - (bb.2.2.1 - bb.1)) 2,
          Int.fdiv (300 - (bb.2.2.2 - bb.2.1)) 2)]) := by
  constructor
  · simp only [capture_window_direct, hwin]
    norm_num
    split
    · split_ifs <;> simp [hicon]
    · split_ifs <;> simp [hicon]
  · rintro bb rfl
    simp [create_placeholder_image, hdraw, Image.drawText, Image.new]

/-- C5 witness: a concrete environment with a valid, iconified handle
yields the placeholder frame. -/
theorem minimized_window_placeholder_witness :
    (Win32Env.mk true (0, 0, 500, 400) none true true (fun _ => (0, 0, 120, 20)) true true
        (fun _ _ => (0, 0, 0))).is_window = true ∧
    (Win32Env.mk true (0, 0, 500, 400) none true true (fun _ => (0, 0, 120, 20)) true true
        (fun _ _ => (0, 0, 0))).is_iconic = true ∧
    (Win32Env.mk true (0, 0, 500, 400) none true true (fun _ => (0, 0, 120, 20)) true true
        (fun _ _ => (0, 0, 0))).imagedraw_available = true ∧
    (capture_window_direct
        (Win32Env.mk true (0, 0, 500, 400) none true true (fun _ => (0, 0, 120, 20)) true true
          (fun _ _ => (0, 0, 0))) (0, 0, 0, 0)).2 =
      some (create_placeholder_image
        (Win32Env.mk true (0, 0, 500, 400) none true true (fun _ => (0, 0, 120, 20)) true true
          (fun _ _ => (0, 0, 0))) "Window Minimized") :=
  ⟨rfl, rfl, rfl, (minimized_window_placeholder _ (0, 0, 0, 0) rfl rfl rfl).1⟩

/-- C6: a bitmap whose aspect ratio already equals the target ratio is
purely rescaled — the crop box is the whole scaled bitmap, with zero
offset — so the fit returns exactly the resized bitmap. -/
theorem fit_equal_aspect_pure_rescale (img : Image) (tw th : ℤ)
    (hsw : 0 < img.width) (hsh : 0 < img.height) (htw : 0 < tw) (hth : 0 < th)
    (hasp : img.width * th = img.height * tw) :
    resize_image_maintain_aspect img tw th = (img.resize tw th).crop 0 0 tw th ∧
    resize_image_maintain_aspect img tw th = img.resize tw th := by
  have hshQ : (0 : ℚ) < (img.height : ℚ) := by exact_mod_cast hsh
  have htwQ : (0 : ℚ) < (tw : ℚ) := by exact_mod_cast htw
  have hthQ : (0 : ℚ) < (th : ℚ) := by exact_mod_cast hth
  have haspQ : (img.width : ℚ) / (img.height : ℚ) = (tw : ℚ) / (th : ℚ) := by
    rw [div_eq_div_iff (ne_of_gt hshQ) (ne_of_gt hthQ)]
    exact_mod_cast hasp.trans (mul_comm img.height tw)
  have hnot : ¬ ((img.width : ℚ) / (img.height : ℚ) > (tw : ℚ) / (th : ℚ)) :=
    not_lt.mpr haspQ.le
  have hq : (tw : ℚ) / ((img.width : ℚ) / (img.height : ℚ)) = (th : ℚ) := by
    rw [haspQ, div_div_eq_mul_div]
    field_simp
  have hpy : pyInt ((tw : ℚ) / ((img.width : ℚ) / (img.height : ℚ))) = th := by
    rw [hq, pyInt_of_nonneg (le_of_lt hthQ), Int.floor_intCast]
  have h1 : resize_image_maintain_aspect img tw th = (img.resize tw th).crop 0 0 tw th := by
    simp only [resize_image_maintain_aspect]
    rw [if_neg hnot, hpy]
    norm_num
  exact ⟨h1, h1.trans (crop_resize_full img tw th)⟩

/-- C6 witness: a 320x240 source fitted to 4x3 (the same ratio) is
exactly its rescale. -/
theorem fit_equal_aspect_witness :
    0 < (Image.new 320 240 (0, 0, 0)).width ∧ 0 < (Image.new 320 240 (0, 0, 0)).height ∧
    (0 : ℤ) < 4 ∧ (0 : ℤ) < 3 ∧
    (Image.new 320 240 (0, 0, 0)).width * 3 = (Image.new 320 240 (0, 0, 0)).height * 4 ∧
    resize_image_maintain_aspect (Image.new 320 240 (0, 0, 0)) 4 3 =
      (Image.new 320 240 (0, 0, 0)).resize 4 3 :=
  ⟨by norm_num [Image.new], by norm_num [Image.new], by norm_num, by norm_num,
    by norm_num [Image.new],
    (fit_equal_aspect_pure_rescale (Image.new 320 240 (0, 0, 0)) 4 3 (by norm_num [Image.new])
      (by norm_num [Image.new]) (by norm_num) (by norm_num) (by norm_num [Image.new])).2⟩

/-- C7 counterexample: two runs of the observed-size handler identical
except for `maintain_aspect_ratio` end with different tracked ratios
(the handler returns immediately when the flag is off), so the two
toggles are not independent in the claimed sense. -/
theorem toggles_not_independent_counterexample :
    (handle_source_size_change ⟨true, true, some (16 / 9)⟩ (1280, 960)).1.source_aspect_ratio =
      some ((1280 : ℚ) / 960) ∧
    (handle_source_size_change ⟨false, true, some (16 / 9)⟩ (1280, 960)).1.source_aspect_ratio =
      some ((16 : ℚ) / 9) ∧
    ((1280 : ℚ) / 960 ≠ (16 : ℚ) / 9) := by
  refine ⟨?_, ?_, ?_⟩
  · norm_num [handle_source_size_change, abs_of_neg]
  · norm_num [handle_source_size_change]
  · norm_num

/-- C7 amended: the resulting tracked ratio is independent of
`auto_resize_on_source_change` (which only gates the resize signal);
the dependence on `maintain_aspect_ratio` shown by the counterexample
remains. -/
theorem auto_resize_toggle_independent (m : Bool) (a1 a2 : Bool) (r : Option ℚ) (sz : ℤ × ℤ) :
    (handle_source_size_change ⟨m, a1, r⟩ sz).1.source_aspect_ratio =
      (handle_source_size_change ⟨m, a2, r⟩ sz).1.source_aspect_ratio := by
  cases m
  · rfl
  · cases r <;> simp only [handle_source_size_change] <;> split_ifs <;> simp_all

/-- C8: a region-creation request with any non-numeric field or a
non-positive width or height is rejected before a session is created —
an error is reported synchronously and `active_pips` is unchanged. -/
theorem region_pip_rejected (fx fy fw fh : Option ℤ) (pips : List (ℤ × ℤ × ℤ × ℤ))
    (h : fx = none ∨ fy = none ∨ fw = none ∨ fh = none ∨
      (∃ w, fw = some w ∧ w ≤ 0) ∨ (∃ hh, fh = some hh ∧ hh ≤ 0)) :
    (∃ msg, (create_region_pip fx fy fw fh pips).1 = CreateRegionResult.error msg) ∧
    (create_region_pip fx fy fw fh pips).2 = pips := by
  rcases h with rfl | rfl | rfl | rfl | ⟨w, rfl, hw⟩ | ⟨hh, rfl, hh2⟩
  · cases fy <;> cases fw <;> cases fh <;> simp [create_region_pip]
  · cases fx <;> cases fw <;> cases fh <;> simp [create_region_pip]
  · cases fx <;> cases fy <;> cases fh <;> simp [create_region_pip]
  · cases fx <;> cases fy <;> cases fw <;> simp [create_region_pip]
  · cases fx <;> cases fy <;> cases fh <;> simp [create_region_pip, hw]
  · cases fx <;> cases fy <;> cases fw <;> simp [create_region_pip, hh2]

/-- C8 witness: the claim's scenario `(x=0, y=0, width=0, height=600)`
is rejected with no session side effects. -/
theorem region_pip_rejected_witness :
    ((some (0 : ℤ) = none ∨ some (0 : ℤ) = none ∨ some (0 : ℤ) = none ∨
        some (600 : ℤ) = none ∨
        (∃ w, some (0 : ℤ) = some w ∧ w ≤ 0) ∨
        (∃ hh, some (600 : ℤ) = some hh ∧ hh ≤ 0))) ∧
    (∃ msg, (create_region_pip (some 0) (some 0) (some 0) (some 600) []).1 =
      CreateRegionResult.error msg) ∧
    (create_region_pip (some 0) (some 0) (some 0) (some 600) []).2 = [] :=
  ⟨Or.inr (Or.inr (Or.inr (Or.inr (Or.inl ⟨0, rfl, le_refl 0⟩)))),
    (region_pip_rejected (some 0) (some 0) (some 0) (some 600) []
      (Or.inr (Or.inr (Or.inr (Or.inr (Or.inl ⟨0, rfl, le_refl 0⟩)))))).1,
    (region_pip_rejected (some 0) (some 0) (some 0) (some 600) []
      (Or.inr (Or.inr (Or.inr (Or.inr (Or.inl ⟨0, rfl, le_refl 0⟩)))))).2⟩

/-- C9: on the title-lookup tracking path, whenever the re-resolved
bounding box has a different size and its exact ratio differs at all
from the old one (no 0.01 threshold), the tracked ratio is set to the
new ratio immediately, and the overlay auto-resize is dispatched
exactly when `maintain_aspect_ratio`, `auto_resize_on_source_change`
and the overlay's existence all hold. -/
theorem title_tracking_sets_ratio_immediately (st : TrackState) (new_bbox : ℤ × ℤ × ℤ × ℤ)
    (hold : 0 < st.bbox.2.2.2) (hnew : 0 < new_bbox.2.2.2)
    (hsize : (st.bbox.2.2.1, st.bbox.2.2.2) ≠ (new_bbox.2.2.1, new_bbox.2.2.2))
    (hasp : (st.bbox.2.2.1 : ℚ) / (st.bbox.2.2.2 : ℚ) ≠
      (new_bbox.2.2.1 : ℚ) / (new_bbox.2.2.2 : ℚ)) :
    (update_window_position st (some new_bbox)).1.source_aspect_ratio =
      some ((new_bbox.2.2.1 : ℚ) / (new_bbox.2.2.2 : ℚ)) ∧
    (update_window_position st (some new_bbox)).1.bbox = new_bbox ∧
    ((update_window_position st (some new_bbox)).2 = true ↔
      st.maintain_aspect_ratio = true ∧ st.auto_resize_on_source_change = true ∧
        st.window_exists = true) := by
  have hbb : st.bbox ≠ new_bbox := by
    intro h
    exact hsize (by rw [h])
  have haspopt :
      (if 0 < st.bbox.2.2.2 then some ((st.bbox.2.2.1 : ℚ) / (st.bbox.2.2.2 : ℚ)) else none) ≠
      (if 0 < new_bbox.2.2.2 then some ((new_bbox.2.2.1 : ℚ) / (new_bbox.2.2.2 : ℚ))
        else none) := by
    rw [if_pos hold, if_pos hnew]
    simp [hasp]
  simp only [update_window_position]
  rw [if_pos hbb, if_pos hsize, if_pos haspopt]
  refine ⟨by rw [if_pos hnew], rfl, ?_⟩
  simp [Bool.and_eq_true, and_assoc]

/-- C9 witness: a one-pixel width change (1280x720 to 1281x720, a ratio
change of about 0.0014, far below 0.01) immediately resets the tracked
ratio and dispatches the auto-resize with both toggles on. -/
theorem title_tracking_witness :
    0 < (TrackState.mk (0, 0, 1280, 720) (some (16 / 9)) true true true).bbox.2.2.2 ∧
    0 < ((0 : ℤ), (0 : ℤ), (1281 : ℤ), (720 : ℤ)).2.2.2 ∧
    ((TrackState.mk (0, 0, 1280, 720) (some (16 / 9)) true true true).bbox.2.2.1,
      (TrackState.mk (0, 0, 1280, 720) (some (16 / 9)) true true true).bbox.2.2.2) ≠
      (((0 : ℤ), (0 : ℤ), (1281 : ℤ), (720 : ℤ)).2.2.1,
        ((0 : ℤ), (0 : ℤ), (1281 : ℤ), (720 : ℤ)).2.2.2) ∧
    (update_window_position (TrackState.mk (0, 0, 1280, 720) (some (16 / 9)) true true true)
        (some (0, 0, 1281, 720))).1.source_aspect_ratio = some ((1281 : ℚ) / 720) ∧
    (update_window_position (TrackState.mk (0, 0, 1280, 720) (some (16 / 9)) true true true)
        (some (0, 0, 1281, 720))).2 = true :=
  ⟨by norm_num, by norm_num, by norm_num,
    (title_tracking_sets_ratio_immediately _ (0, 0, 1281, 720) (by norm_num) (by norm_num)
      (by norm_num) (by norm_num)).1,
    ((title_tracking_sets_ratio_immediately _ (0, 0, 1281, 720) (by norm_num) (by norm_num)
      (by norm_num) (by norm_num)).2.2).mpr ⟨rfl, rfl, rfl⟩⟩

/-- C10: every placeholder bitmap is exactly 400x300 regardless of the
environment and text, so one capture-loop iteration on a placeholder
frame observes source size (400, 300) and — here with tracked ratio
16/9 and last size 1280x720 — resets the tracked ratio to 400/300 =
4/3 even though the real source's ratio never changed. -/
theorem placeholder_size_resets_ratio (env : Win32Env) (text : String) :
    (create_placeholder_image env text).width = 400 ∧
    (create_placeholder_image env text).height = 300 ∧
    (capture_loop_step ⟨true, true, some (16 / 9)⟩ (some (1280, 720))
        (some (create_placeholder_image env text)) true 320 240).1.source_aspect_ratio =
      some ((400 : ℚ) / 300) ∧
    (capture_loop_step ⟨true, true, some (16 / 9)⟩ (some (1280, 720))
        (some (create_placeholder_image env text)) true 320 240).2.1 =
      some ((400 : ℤ), (300 : ℤ)) ∧
    ((400 : ℚ) / 300 ≠ (16 : ℚ) / 9) := by
  have hw : (create_placeholder_image env text).width = 400 := by
    simp only [create_placeholder_image]
    split_ifs <;> rfl
  have hh : (create_placeholder_image env text).height = 300 := by
    simp only [create_placeholder_image]
    split_ifs <;> rfl
  refine ⟨hw, hh, ?_, ?_, by norm_num⟩
  · simp only [capture_loop_step, hw, hh]
    norm_num [handle_source_size_change, abs_of_neg]
  · simp only [capture_loop_step, hw, hh]
    norm_num [handle_source_size_change, abs_of_neg]

end InfinitePIP
